import Mathlib

/-!
Shallow embedding of the service worker of the pwa-test repository
(the cache-policy engine: install-time pre-population, activate-time
cleanup of stale cache namespaces, cache-first fetch handling with
offline fallback, and the message handler).

The cache storage is modelled as an ordered association list of named
namespaces (the order is creation order, which is the order the
platform's global cache match consults them in); each namespace is an
association list from request identity (URL, method restricted to GET
by the handler) to captured responses.  The network transport and the
namespace-deletion primitive are fallible external collaborators and
are passed in as parameters.
-/

namespace PwaSW

/-- Version tag of the current cache namespace (const CACHE_NAME). -/
def CACHE_NAME : String := "pwa-test-cache-v1"

/-- Path of the offline fallback page (const OFFLINE_URL). -/
def OFFLINE_URL : String := "/offline.html"

/-- Resource manifest pre-populated at install (const CACHE_RESOURCES). -/
def CACHE_RESOURCES : List String :=
  ["/", "/index.html", "/manifest.json", "/offline.html", "/css/style.css",
   "/js/app.js", "/js/install.js", "/js/push.js",
   "/icons/icon-192x192.png", "/icons/icon-512x512.png"]

/-- A captured response: status, status text, response type
("basic", "opaque", "cors", "default", ...) and a body snapshot. -/
structure Response where
  status : Nat
  statusText : String
  resType : String
  body : String
deriving DecidableEq, Repr

/-- A cache namespace: association list from request URL to stored response. -/
abbrev Cache := List (String × Response)

/-- The cache storage: named namespaces in creation order. -/
abbrev CacheStorage := List (String × Cache)

/-- The network transport: fallible asynchronous call, modelled as a
function from URL to a response or a failure. -/
abbrev Network := String → Except Unit Response

/-- Lookup of a request identity inside one namespace (cache.match). -/
def cacheMatch : Cache → String → Option Response
  | [], _ => none
  | e :: rest, url => if e.1 = url then some e.2 else cacheMatch rest url

/-- Lookup of a namespace by name in the storage. -/
def storageLookup : CacheStorage → String → Option Cache
  | [], _ => none
  | p :: rest, name => if p.1 = name then some p.2 else storageLookup rest name

/-- Global match (caches.match): consult every namespace in creation
order and return the first stored entry for the identity, if any. -/
def cachesMatch : CacheStorage → String → Option Response
  | [], _ => none
  | p :: rest, url =>
    match cacheMatch p.2 url with
    | some r => some r
    | none => cachesMatch rest url

/-- Whether a namespace of the given name exists. -/
def hasCache : CacheStorage → String → Bool
  | [], _ => false
  | p :: rest, name => (p.1 == name) || hasCache rest name

/-- caches.open: create-if-absent; a fresh namespace is appended at the
end (creation order). -/
def cachesOpen (s : CacheStorage) (name : String) : CacheStorage :=
  if hasCache s name then s else s ++ [(name, [])]

/-- cache.put into one namespace: replace the entry for the identity if
present, otherwise append it. -/
def cachePut : Cache → String → Response → Cache
  | [], url, r => [(url, r)]
  | e :: rest, url, r =>
    if e.1 = url then (url, r) :: cachePut rest url r
    else e :: cachePut rest url r

/-- cache.put routed through the storage to the namespace of the given
name. -/
def storagePut : CacheStorage → String → String → Response → CacheStorage
  | [], _, _, _ => []
  | p :: rest, name, url, r =>
    if p.1 = name then (p.1, cachePut p.2 url r) :: storagePut rest name url r
    else p :: storagePut rest name url r

/-- Whether a response has an ok (2xx) status; cache.addAll rejects on
responses that are not ok. -/
def Response.isOkStatus (r : Response) : Bool :=
  decide (200 ≤ r.status) && decide (r.status ≤ 299)

/-- cache.addAll: fetch every manifest path; if any fetch fails (or
yields a response that is not ok) the whole operation rejects and the
namespace is left unchanged (the platform's batch cache operation is
all-or-nothing); otherwise every fetched response is stored. -/
def cacheAddAll (net : Network) : Cache → List String → Except Unit Cache
  | c, [] => .ok c
  | c, u :: rest =>
    match net u with
    | .error _ => .error ()
    | .ok r =>
      if r.isOkStatus then cacheAddAll net (cachePut c u r) rest
      else .error ()

/-- Log entries emitted through the log helper, one constructor per
log call site of the service worker. -/
inductive LogEntry where
  | installing
  | openedCacheAdding
  | precacheDone
  | cacheError
  | activating
  | deletingOldCache (name : String)
  | activateDone
  | cacheHit (url : String)
  | networkFetch (url : String)
  | cacheAdd (url : String)
  | offline (url : String)
  | messageReceived (t : Option String)
deriving DecidableEq, Repr

/-- State of the service worker world: the cache storage, how many
times skipWaiting was invoked, whether clients.claim ran, and the log. -/
structure SWState where
  caches : CacheStorage
  skipWaitingCalls : Nat
  claimed : Bool
  logs : List LogEntry
deriving DecidableEq, Repr

/-- The promise chain inside the install handler's waitUntil, before
its final catch: open the versioned namespace, addAll the manifest,
then skipWaiting.  Rejects iff addAll rejects. -/
def installChain (net : Network) (st : SWState) : SWState × Except Unit Unit :=
  let s1 := cachesOpen st.caches CACHE_NAME
  let st1 : SWState :=
    { st with caches := s1,
              logs := st.logs ++ [.installing, .openedCacheAdding] }
  match cacheAddAll net ((storageLookup s1 CACHE_NAME).getD []) CACHE_RESOURCES with
  | .error _ => (st1, .error ())
  | .ok c' =>
    ({ st1 with
        caches := (s1.map fun p => if p.1 = CACHE_NAME then (p.1, c') else p),
        skipWaitingCalls := st1.skipWaitingCalls + 1,
        logs := st1.logs ++ [.precacheDone] },
     .ok ())

/-- The install event handler: the chain above with its final catch,
which logs the cache error and resolves, so the promise handed to
waitUntil always resolves successfully. -/
def installHandler (net : Network) (st : SWState) : SWState × Except Unit Unit :=
  match installChain net st with
  | (st', .ok _) => (st', .ok ())
  | (st', .error _) =>
    ({ st' with logs := st'.logs ++ [.cacheError] }, .ok ())

/-- Oracle for the deletion collaborator: delFails name = true means
caches.delete(name) rejects (the namespace is then left in place). -/
abbrev DeleteOracle := String → Bool

/-- The activate event handler: enumerate namespace names, log and
delete every one different from CACHE_NAME, Promise.all the deletions,
then clients.claim.  Every started deletion's effect applies, but if
any deletion rejects, Promise.all rejects and the claim step is
skipped, so the promise handed to waitUntil rejects. -/
def activateHandler (delFails : DeleteOracle) (st : SWState) :
    SWState × Except Unit Unit :=
  let names := st.caches.map Prod.fst
  let targets := names.filter fun n => n ≠ CACHE_NAME
  let newCaches := st.caches.filter fun p =>
    decide (p.1 = CACHE_NAME) || delFails p.1
  let st1 : SWState :=
    { st with caches := newCaches,
              logs := st.logs ++ [.activating]
                        ++ targets.map LogEntry.deletingOldCache }
  if targets.any delFails then (st1, .error ())
  else
    ({ st1 with claimed := true, logs := st1.logs ++ [.activateDone] },
     .ok ())

/-- An intercepted request: method, URL and destination
(destination = "document" for a full-page navigation). -/
structure FetchEvent where
  method : String
  url : String
  destination : String
deriving DecidableEq, Repr

/-- Outcome of the fetch handler: either the handler returned without
calling respondWith (non-GET pass-through) or respondWith's promise
resolved with the given value (none models resolving with undefined,
as caches.match does on a miss). -/
inductive FetchOutcome where
  | notHandled
  | responded (r : Option Response)
deriving DecidableEq, Repr

/-- The synthetic failure response built in the fetch handler's catch
branch for non-navigational requests (new Response with status 408). -/
def offlineResponse : Response :=
  { status := 408, statusText := "Offline", resType := "default",
    body := "オフライン" }

/-- The fetch event handler (cache-first strategy).  Returns the new
state, the outcome, and whether the network transport was invoked. -/
def fetchHandler (net : Network) (st : SWState) (ev : FetchEvent) :
    SWState × FetchOutcome × Bool :=
  if ev.method ≠ "GET" then (st, .notHandled, false)
  else
    match cachesMatch st.caches ev.url with
    | some r =>
      ({ st with logs := st.logs ++ [.cacheHit ev.url] },
       .responded (some r), false)
    | none =>
      let st1 : SWState :=
        { st with logs := st.logs ++ [.networkFetch ev.url] }
      match net ev.url with
      | .ok r =>
        if r.status ≠ 200 ∨ r.resType ≠ "basic" then
          (st1, .responded (some r), true)
        else
          let s2 := cachesOpen st1.caches CACHE_NAME
          ({ st1 with caches := storagePut s2 CACHE_NAME ev.url r,
                      logs := st1.logs ++ [.cacheAdd ev.url] },
           .responded (some r), true)
      | .error _ =>
        let st2 : SWState :=
          { st1 with logs := st1.logs ++ [.offline ev.url] }
        if ev.destination = "document" then
          (st2, .responded (cachesMatch st.caches OFFLINE_URL), true)
        else (st2, .responded (some offlineResponse), true)

/-- The data field of a message event: none models null/undefined
event.data (on which event.data.type throws a TypeError); some d
models a non-null value whose type field is d.mtype. -/
structure MessageData where
  mtype : Option String
deriving DecidableEq, Repr

/-- The message event handler.  The first statement logs
event.data.type, which throws on null/undefined data (modelled as the
error outcome); otherwise skipWaiting runs exactly when the type field
is the string SKIP_WAITING. -/
def messageHandler (data : Option MessageData) (st : SWState) :
    SWState × Except Unit Unit :=
  match data with
  | none => (st, .error ())
  | some d =>
    let st1 : SWState :=
      { st with logs := st.logs ++ [.messageReceived d.mtype] }
    if d.mtype = some "SKIP_WAITING" then
      ({ st1 with skipWaitingCalls := st1.skipWaitingCalls + 1 }, .ok ())
    else (st1, .ok ())

/-- An empty initial state. -/
def emptyState : SWState :=
  { caches := [], skipWaitingCalls := 0, claimed := false, logs := [] }

/-- A network that fails on every request. -/
def netFail : Network := fun _ => .error ()

/-- A sample basic 200 response. -/
def sampleResp : Response :=
  { status := 200, statusText := "OK", resType := "basic", body := "hello" }

/-- A sample stored offline page entry. -/
def offlinePage : Response :=
  { status := 200, statusText := "OK", resType := "basic",
    body := "offline page" }

/-- Whether the fetch handler's promise resolved (respondWith was
called and the promise settled with a value, possibly undefined). -/
def FetchOutcome.resolved : FetchOutcome → Bool
  | .notHandled => false
  | .responded _ => true

/-- Whether the fetch handler's promise resolved with a well-formed
response object (not undefined). -/
def FetchOutcome.wellFormed : FetchOutcome → Bool
  | .responded (some _) => true
  | _ => false

/-- Entry stored for a request identity inside the namespace of the
given name (lookup of the namespace followed by a match in it). -/
def storageEntry (s : CacheStorage) (name url : String) : Option Response :=
  cacheMatch ((storageLookup s name).getD []) url

/-- A sample non-navigational request. -/
def evImg : FetchEvent :=
  { method := "GET", url := "/pic.png", destination := "image" }

/-- A sample navigational (document) request. -/
def evDoc : FetchEvent :=
  { method := "GET", url := "/page", destination := "document" }

/-- A state used for the activate examples: two stale namespaces next
to the current one. -/
def stAct : SWState :=
  { caches := [("old-a", []), ("old-b", []), (CACHE_NAME, [])],
    skipWaitingCalls := 0, claimed := false, logs := [] }

/-- A deletion oracle under which deleting the namespace old-a rejects. -/
def delOracleA : DeleteOracle := fun n => n == "old-a"

/-- A state whose current namespace holds the offline page and one
document entry. -/
def stOff : SWState :=
  { caches := [(CACHE_NAME, [(OFFLINE_URL, offlinePage), ("/index.html", sampleResp)])],
    skipWaitingCalls := 0, claimed := false, logs := [] }

/-- A sample navigational request for a pre-cached document. -/
def evIdx : FetchEvent :=
  { method := "GET", url := "/index.html", destination := "document" }

/-- A sample 404 response. -/
def resp404 : Response :=
  { status := 404, statusText := "Not Found", resType := "basic", body := "" }

/-- A network answering every request with the 404 response. -/
def net404 : Network := fun _ => .ok resp404

/-- A network answering every request with the sample basic 200
response. -/
def netOk : Network := fun _ => .ok sampleResp

/-! ## Helper lemmas -/

/-- addAll rejects whenever the manifest contains a path whose fetch
fails. -/
theorem cacheAddAll_error_of_mem (net : Network) (u : String)
    (urls : List String) (hu : u ∈ urls) (hf : net u = .error ()) :
    ∀ c, cacheAddAll net c urls = .error () := by
  induction urls with
  | nil => cases hu
  | cons v rest ih =>
    intro c
    rcases List.mem_cons.mp hu with h | h
    · subst h
      simp [cacheAddAll, hf]
    · unfold cacheAddAll
      cases hnv : net v with
      | error e => rfl
      | ok r =>
        by_cases hok : r.isOkStatus
        · simp [hok, ih h]
        · simp [hok]

/-- Appending a fresh empty namespace does not change the global match. -/
theorem cachesMatch_append_empty (s : CacheStorage) (n url : String) :
    cachesMatch (s ++ [(n, [])]) url = cachesMatch s url := by
  induction s with
  | nil => rfl
  | cons p rest ih =>
    simp only [List.cons_append]
    unfold cachesMatch
    cases h : cacheMatch p.2 url with
    | some r => rfl
    | none => simpa using ih

/-- caches.open does not change the global match. -/
theorem cachesMatch_open (s : CacheStorage) (n url : String) :
    cachesMatch (cachesOpen s n) url = cachesMatch s url := by
  unfold cachesOpen
  by_cases h : hasCache s n
  · simp [h]
  · simp [h, cachesMatch_append_empty]

/-- If some namespace holds an entry for the identity, the global
match finds an entry for it. -/
theorem cachesMatch_isSome_of_lookup (s : CacheStorage) (n url : String)
    (c : Cache) (r : Response) (hc : storageLookup s n = some c)
    (hr : cacheMatch c url = some r) :
    (cachesMatch s url).isSome = true := by
  induction s with
  | nil => cases hc
  | cons p rest ih =>
    unfold cachesMatch
    unfold storageLookup at hc
    by_cases hp : p.1 = n
    · simp [hp] at hc
      subst hc
      simp [hr]
    · simp [hp] at hc
      cases hm : cacheMatch p.2 url with
      | some r0 => simp
      | none => simpa using ih hc

/-- After opening, the namespace exists. -/
theorem storageLookup_open_isSome (s : CacheStorage) (n : String) :
    (storageLookup (cachesOpen s n) n).isSome = true := by
  unfold cachesOpen
  by_cases h : hasCache s n
  · simp only [h, if_true]
    induction s with
    | nil => cases h
    | cons p rest ih =>
      unfold storageLookup
      by_cases hp : p.1 = n
      · simp [hp]
      · unfold hasCache at h
        have hb : (p.1 == n) = false := by
          simpa using hp
        simp only [hb, Bool.false_or] at h
        simpa [hp] using ih h
  · simp only [h, if_false]
    induction s with
    | nil => simp [storageLookup]
    | cons p rest ih =>
      unfold hasCache at h
      unfold storageLookup
      by_cases hp : p.1 = n
      · simp [hp] at h
      · have hrest : hasCache rest n = false := by
          rcases Bool.or_eq_false_iff.mp (Bool.eq_false_iff.mpr h) with ⟨_, h2⟩
          exact h2
        have : ¬ hasCache rest n = true := by simp [hrest]
        simpa [hp] using ih this

/-- put through the storage updates the looked-up namespace with a
cachePut. -/
theorem storageLookup_put (s : CacheStorage) (n url : String)
    (r : Response) (c : Cache) (hc : storageLookup s n = some c) :
    storageLookup (storagePut s n url r) n = some (cachePut c url r) := by
  induction s with
  | nil => cases hc
  | cons p rest ih =>
    unfold storageLookup at hc
    unfold storagePut
    by_cases hp : p.1 = n
    · simp [hp] at hc
      subst hc
      simp [storageLookup, hp]
    · simp [hp] at hc
      simp [storageLookup, hp, ih hc]

/-- A put entry is found by a subsequent match on the same identity. -/
theorem cacheMatch_put_self (c : Cache) (url : String) (r : Response) :
    cacheMatch (cachePut c url r) url = some r := by
  induction c with
  | nil => simp [cachePut, cacheMatch]
  | cons e rest ih =>
    unfold cachePut
    by_cases he : e.1 = url
    · simp [he, cacheMatch]
    · simp [he, cacheMatch, ih]

/-! ## Claim theorems -/

/-- C1 counterexample: the manifest path "/" is fetched during
pre-population and its fetch fails under netFail, yet the install
handler's promise resolves successfully (the final catch logs the
error and swallows it), so the install operation does not report
failure to the driver. -/
theorem install_reports_success_on_fetch_failure :
    ("/" : String) ∈ CACHE_RESOURCES ∧
    netFail "/" = .error () ∧
    (installHandler netFail emptyState).2 = .ok () := by
  refine ⟨by simp [CACHE_RESOURCES], rfl, rfl⟩

/-- C1 amended: if fetching any manifest path fails during
pre-population, the rejection of addAll is caught by the install
handler, which logs a cache error and still resolves successfully;
skipWaiting is not invoked and no entry is committed to any cache
namespace (addAll is all-or-nothing, so the global match is unchanged
for every identity). -/
theorem install_failure_caught_and_swallowed (net : Network)
    (st : SWState) (u : String) (hu : u ∈ CACHE_RESOURCES)
    (hf : net u = .error ()) :
    (installHandler net st).2 = .ok () ∧
    (installHandler net st).1.skipWaitingCalls = st.skipWaitingCalls ∧
    (∀ url, cachesMatch (installHandler net st).1.caches url =
      cachesMatch st.caches url) ∧
    LogEntry.cacheError ∈ (installHandler net st).1.logs := by
  have hadd := cacheAddAll_error_of_mem net u CACHE_RESOURCES hu hf
  unfold installHandler installChain
  simp only [hadd]
  refine ⟨by trivial, by trivial, ?_, by simp⟩
  intro url
  simpa using cachesMatch_open st.caches CACHE_NAME url

/-- C1 witness: the amended theorem applied at the failing network and
the empty state. -/
theorem install_failure_caught_and_swallowed_witness :
    (installHandler netFail emptyState).2 = .ok () ∧
    (installHandler netFail emptyState).1.skipWaitingCalls =
      emptyState.skipWaitingCalls ∧
    cachesMatch (installHandler netFail emptyState).1.caches "/index.html" =
      cachesMatch emptyState.caches "/index.html" ∧
    LogEntry.cacheError ∈ (installHandler netFail emptyState).1.logs := by
  obtain ⟨h1, h2, h3, h4⟩ :=
    install_failure_caught_and_swallowed netFail emptyState "/"
      (by simp [CACHE_RESOURCES]) rfl
  exact ⟨h1, h2, h3 "/index.html", h4⟩

/-- C4: when every deletion succeeds, the activate handler resolves
successfully, claims the clients, and afterwards every remaining cache
namespace bears the current version tag CACHE_NAME. -/
theorem activate_version_isolation (delFails : DeleteOracle)
    (st : SWState) (h : ∀ n, delFails n = false) :
    (activateHandler delFails st).2 = .ok () ∧
    (activateHandler delFails st).1.claimed = true ∧
    (activateHandler delFails st).1.caches.all
      (fun p => decide (p.1 = CACHE_NAME)) = true := by
  unfold activateHandler
  have hany : (((st.caches.map Prod.fst).filter
      fun n => n ≠ CACHE_NAME).any delFails) = false := by
    simp [h]
  simp only [hany, Bool.false_eq_true, if_false]
  refine ⟨by trivial, by trivial, ?_⟩
  rw [List.all_eq_true]
  intro p hp
  have := (List.mem_filter.mp hp).2
  simpa [h] using this

/-- C4 witness: the theorem applied to a storage with one stale
namespace next to the current one, all deletions succeeding. -/
theorem activate_version_isolation_witness :
    (activateHandler (fun _ => false) stAct).2 = .ok () ∧
    (activateHandler (fun _ => false) stAct).1.claimed = true ∧
    (activateHandler (fun _ => false) stAct).1.caches.all
      (fun p => decide (p.1 = CACHE_NAME)) = true :=
  activate_version_isolation (fun _ => false) stAct (fun _ => rfl)

/-- C9 counterexample: with stale namespaces old-a and old-b where
deleting old-a rejects, the activate handler's promise rejects
(Promise.all propagates the failure and the claim step is skipped), so
an individual deletion failure does abort the activate operation. -/
theorem activate_aborts_on_deletion_failure :
    (activateHandler delOracleA stAct).2 = .error () ∧
    (activateHandler delOracleA stAct).1.claimed = false ∧
    storageLookup (activateHandler delOracleA stAct).1.caches "old-b" = none ∧
    storageLookup (activateHandler delOracleA stAct).1.caches "old-a" =
      some [] := by
  refine ⟨rfl, rfl, rfl, rfl⟩

/-- C9 amended: when deleting one stale namespace fails, every other
started deletion still takes effect (the surviving namespaces are
exactly those bearing the current tag or whose deletion rejected) and
each stale namespace's deletion attempt is logged, but the activate
operation itself rejects: its promise fails and clients.claim is not
invoked. -/
theorem activate_deletion_failure_aborts (delFails : DeleteOracle)
    (st : SWState) (n : String) (hn : n ∈ st.caches.map Prod.fst)
    (hne : n ≠ CACHE_NAME) (hf : delFails n = true) :
    (activateHandler delFails st).2 = .error () ∧
    (activateHandler delFails st).1.claimed = st.claimed ∧
    (activateHandler delFails st).1.caches = st.caches.filter
      (fun p => decide (p.1 = CACHE_NAME) || delFails p.1) ∧
    LogEntry.deletingOldCache n ∈ (activateHandler delFails st).1.logs := by
  have hmem : n ∈ (st.caches.map Prod.fst).filter
      (fun m => m ≠ CACHE_NAME) := by
    rw [List.mem_filter]
    exact ⟨hn, by simpa using hne⟩
  have hany : (((st.caches.map Prod.fst).filter
      fun m => m ≠ CACHE_NAME).any delFails) = true := by
    rw [List.any_eq_true]
    exact ⟨n, hmem, hf⟩
  unfold activateHandler
  simp only [hany, if_true]
  refine ⟨by trivial, by trivial, by trivial, ?_⟩
  simp only [List.mem_append]
  exact Or.inr (List.mem_map.mpr ⟨n, hmem, rfl⟩)

/-- C9 witness: the amended theorem applied at the concrete oracle
that fails on old-a, over the storage with namespaces old-a, old-b and
the current one. -/
theorem activate_deletion_failure_aborts_witness :
    (activateHandler delOracleA stAct).2 = .error () ∧
    (activateHandler delOracleA stAct).1.claimed = stAct.claimed ∧
    (activateHandler delOracleA stAct).1.caches = stAct.caches.filter
      (fun p => decide (p.1 = CACHE_NAME) || delOracleA p.1) ∧
    LogEntry.deletingOldCache "old-a" ∈
      (activateHandler delOracleA stAct).1.logs :=
  activate_deletion_failure_aborts delOracleA stAct "old-a"
    (by simp [stAct]) (by simp [CACHE_NAME]) rfl

/-- C10: the message handler dereferences event.data.type in its very
first log statement, before the null guard on the next line, so a
message whose data is null or undefined makes the handler throw a
TypeError; the guard that was meant to make null data harmless is
unreachable for it.  For non-null data the handler completes, and
skipWaiting runs exactly when the type field is SKIP_WAITING. -/
theorem message_null_data_throws :
    (messageHandler none emptyState).2 = .error () ∧
    (messageHandler (some { mtype := some "SKIP_WAITING" }) emptyState).2 =
      .ok () ∧
    (messageHandler (some { mtype := some "SKIP_WAITING" })
      emptyState).1.skipWaitingCalls = 1 ∧
    (messageHandler (some { mtype := none }) emptyState).2 = .ok () ∧
    (messageHandler (some { mtype := none })
      emptyState).1.skipWaitingCalls = 0 := by
  refine ⟨rfl, rfl, rfl, rfl, rfl⟩

/-- C2 counterexample: for a navigational GET request under an empty
cache and a failing network, the offline fallback entry is absent, and
the fetch handler resolves with undefined (caches.match's miss value)
rather than with a well-formed generic failure response. -/
theorem fetch_resolves_undefined_counterexample :
    (fetchHandler netFail emptyState evDoc).2.1 = .responded none ∧
    ¬ ∃ r : Response, (fetchHandler netFail emptyState evDoc).2.1 =
        .responded (some r) := by
  have h0 : (fetchHandler netFail emptyState evDoc).2.1 =
      FetchOutcome.responded none := rfl
  refine ⟨h0, ?_⟩
  rintro ⟨r, h⟩
  rw [h0] at h
  simp at h

/-- C2 amended: every intercepted GET fetch signal resolves exactly
once (the respondWith promise settles, never rejecting and never
leaving the request unresolved); every non-navigational request
resolves to a well-formed response (cache entry, network response, or
the 408 substitute), while a navigational request whose cache and
network both fail resolves to whatever caches.match yields for the
offline path — undefined, not a substitute response, when that entry
is absent. -/
theorem fetch_always_resolves (net : Network) (st : SWState)
    (ev : FetchEvent) (hget : ev.method = "GET") :
    ((fetchHandler net st ev).2.1).resolved = true ∧
    (ev.destination ≠ "document" →
      ((fetchHandler net st ev).2.1).wellFormed = true) := by
  unfold fetchHandler
  rw [if_neg (by simp [hget])]
  cases hcm : cachesMatch st.caches ev.url with
  | some r => simp [FetchOutcome.resolved, FetchOutcome.wellFormed]
  | none =>
    cases hnet : net ev.url with
    | ok r =>
      by_cases hbad : r.status ≠ 200 ∨ r.resType ≠ "basic"
      · simp [hbad, FetchOutcome.resolved, FetchOutcome.wellFormed]
      · simp [hbad, FetchOutcome.resolved, FetchOutcome.wellFormed]
    | error e =>
      by_cases hd : ev.destination = "document"
      · simp [hd, FetchOutcome.resolved, FetchOutcome.wellFormed]
      · simp [hd, FetchOutcome.resolved, FetchOutcome.wellFormed]

/-- C2 witness: the amended theorem at a non-navigational request over
the empty cache and the failing network. -/
theorem fetch_always_resolves_witness :
    ((fetchHandler netFail emptyState evImg).2.1).resolved = true ∧
    ((fetchHandler netFail emptyState evImg).2.1).wellFormed = true := by
  obtain ⟨h1, h2⟩ := fetch_always_resolves netFail emptyState evImg rfl
  exact ⟨h1, h2 (by decide)⟩

/-- C3: if the current namespace holds an entry for a GET request's
identity, the fetch handler never invokes the network transport, the
cache storage is unchanged, and the handler responds with the stored
entry found by the cache match. -/
theorem fetch_cache_hit_no_network (net : Network) (st : SWState)
    (ev : FetchEvent) (c : Cache) (r : Response)
    (hget : ev.method = "GET")
    (hc : storageLookup st.caches CACHE_NAME = some c)
    (hr : cacheMatch c ev.url = some r) :
    (fetchHandler net st ev).2.2 = false ∧
    (fetchHandler net st ev).1.caches = st.caches ∧
    (cachesMatch st.caches ev.url).isSome = true ∧
    (fetchHandler net st ev).2.1 =
      .responded (cachesMatch st.caches ev.url) := by
  have hsome :=
    cachesMatch_isSome_of_lookup st.caches CACHE_NAME ev.url c r hc hr
  obtain ⟨r', hr'⟩ := Option.isSome_iff_exists.mp hsome
  unfold fetchHandler
  rw [if_neg (by simp [hget]), hr']
  exact ⟨rfl, rfl, rfl, rfl⟩

/-- C3 witness: the theorem at a state whose current namespace holds
the requested document, with a failing network. -/
theorem fetch_cache_hit_no_network_witness :
    (fetchHandler netFail stOff evIdx).2.2 = false ∧
    (fetchHandler netFail stOff evIdx).1.caches = stOff.caches ∧
    (cachesMatch stOff.caches evIdx.url).isSome = true ∧
    (fetchHandler netFail stOff evIdx).2.1 =
      .responded (cachesMatch stOff.caches evIdx.url) :=
  fetch_cache_hit_no_network netFail stOff evIdx
    [(OFFLINE_URL, offlinePage), ("/index.html", sampleResp)] sampleResp
    rfl rfl rfl

/-- C5: a GET request absent from every cache namespace whose network
call fails and whose destination is a full-page navigation (document)
resolves to the stored offline page entry. -/
theorem fetch_offline_fallback (net : Network) (st : SWState)
    (ev : FetchEvent) (off : Response)
    (hget : ev.method = "GET")
    (hmiss : cachesMatch st.caches ev.url = none)
    (hnet : net ev.url = .error ())
    (hdoc : ev.destination = "document")
    (hoff : cachesMatch st.caches OFFLINE_URL = some off) :
    (fetchHandler net st ev).2.1 = .responded (some off) := by
  unfold fetchHandler
  rw [if_neg (by simp [hget]), hmiss, hnet]
  simp [hdoc, hoff]

/-- C5 witness: the theorem at a state caching the offline page, a
missing page request and the failing network. -/
theorem fetch_offline_fallback_witness :
    (fetchHandler netFail stOff evDoc).2.1 = .responded (some offlinePage) :=
  fetch_offline_fallback netFail stOff evDoc offlinePage rfl rfl rfl rfl rfl

/-- C6: a non-navigational GET request absent from cache whose network
call fails resolves to the synthetic 408 substitute response; the
handler's promise settles instead of propagating the rejection. -/
theorem fetch_non_nav_substitute (net : Network) (st : SWState)
    (ev : FetchEvent) (hget : ev.method = "GET")
    (hmiss : cachesMatch st.caches ev.url = none)
    (hnet : net ev.url = .error ())
    (hnd : ev.destination ≠ "document") :
    (fetchHandler net st ev).2.1 = .responded (some offlineResponse) ∧
    offlineResponse.status = 408 := by
  unfold fetchHandler
  rw [if_neg (by simp [hget]), hmiss, hnet]
  refine ⟨?_, rfl⟩
  simp [hnd]

/-- C6 witness: the theorem at an image request over the empty cache
and the failing network. -/
theorem fetch_non_nav_substitute_witness :
    (fetchHandler netFail emptyState evImg).2.1 =
      .responded (some offlineResponse) ∧
    offlineResponse.status = 408 :=
  fetch_non_nav_substitute netFail emptyState evImg rfl rfl rfl (by decide)

/-- C7: a GET request that misses every cache and receives a network
response with non-200 status or non-basic type gets that response
returned unchanged, the cache storage is not modified, and the request
identity still has no cache entry afterwards. -/
theorem fetch_no_poisoning (net : Network) (st : SWState)
    (ev : FetchEvent) (r : Response) (hget : ev.method = "GET")
    (hmiss : cachesMatch st.caches ev.url = none)
    (hnet : net ev.url = .ok r)
    (hbad : r.status ≠ 200 ∨ r.resType ≠ "basic") :
    (fetchHandler net st ev).2.1 = .responded (some r) ∧
    (fetchHandler net st ev).1.caches = st.caches ∧
    cachesMatch (fetchHandler net st ev).1.caches ev.url = none := by
  unfold fetchHandler
  rw [if_neg (by simp [hget]), hmiss, hnet]
  simp [hbad, hmiss]

/-- C7 witness: the theorem at the 404-answering network over the
empty cache. -/
theorem fetch_no_poisoning_witness :
    (fetchHandler net404 emptyState evDoc).2.1 = .responded (some resp404) ∧
    (fetchHandler net404 emptyState evDoc).1.caches = emptyState.caches ∧
    cachesMatch (fetchHandler net404 emptyState evDoc).1.caches evDoc.url =
      none :=
  fetch_no_poisoning net404 emptyState evDoc resp404 rfl rfl rfl
    (Or.inl (by decide))

/-- C8: a GET request with no existing cache entry whose network call
succeeds with a basic-type status-200 response gets that response
returned, and a subsequent lookup of the same identity in the current
namespace finds the stored snapshot of that very response (hence with
matching status). -/
theorem fetch_cache_miss_population (net : Network) (st : SWState)
    (ev : FetchEvent) (r : Response) (hget : ev.method = "GET")
    (hmiss : cachesMatch st.caches ev.url = none)
    (hnet : net ev.url = .ok r)
    (h200 : r.status = 200) (hbasic : r.resType = "basic") :
    (fetchHandler net st ev).2.1 = .responded (some r) ∧
    storageEntry (fetchHandler net st ev).1.caches CACHE_NAME ev.url =
      some r := by
  unfold fetchHandler
  rw [if_neg (by simp [hget]), hmiss, hnet]
  have hcond : ¬ (r.status ≠ 200 ∨ r.resType ≠ "basic") := by
    simp [h200, hbasic]
  obtain ⟨c0, hc0⟩ := Option.isSome_iff_exists.mp
    (storageLookup_open_isSome st.caches CACHE_NAME)
  have hput := storageLookup_put (cachesOpen st.caches CACHE_NAME)
    CACHE_NAME ev.url r c0 hc0
  refine ⟨by simp [hcond], ?_⟩
  simp [hcond, storageEntry, hput, cacheMatch_put_self]

/-- C8 witness: the theorem at the 200-answering network over the
empty cache. -/
theorem fetch_cache_miss_population_witness :
    (fetchHandler netOk emptyState evDoc).2.1 =
      .responded (some sampleResp) ∧
    storageEntry (fetchHandler netOk emptyState evDoc).1.caches CACHE_NAME
      evDoc.url = some sampleResp :=
  fetch_cache_miss_population netOk emptyState evDoc sampleResp
    rfl rfl rfl rfl rfl

end PwaSW
